import Mathlib

/-
  Verification of the task-lifecycle engine of the generating_photo repository.

  The Python sources are shallowly embedded as executable Lean functions:
  - src/db/models.py          : the Task record (structure Task below)
  - src/services/task_service.py : create_task, update_task, update_task_status,
                                   mark_task_completed, mark_task_failed
  - src/services/ai_service.py   : generate_image retry loop, _parse_response
  - src/api/pic.py               : process_image_task (the background executor)
  - src/services/image_service.py: get_image_path

  Conventions of the embedding:
  - Timestamps (datetime.utcnow()) are modelled as Nat ticks supplied by the caller.
  - The per-id slice of the task store is an Option Task: none means the row with
    that id does not exist; each service function returns the new slice (Python
    mutates the row inside one session and returns the task object or None).
  - Python truthiness of an Optional[str] patch value (if status: ...) is the
    predicate "some s with s nonempty".
  - Exceptions are modelled with Except; external effects (HTTP attempts of the
    generator, file writes of the image store) are supplied as oracle values so
    the control flow of the source is the only thing under proof.
-/

namespace GenPhoto

/-- Task row, from src/db/models.py (class Task / BaseModel).
    status is carried as a raw string because TaskService.update_task assigns
    whatever string the caller passes; all repository call sites pass the
    TaskStatus enum values "pending" / "processing" / "completed" / "failed". -/
structure Task where
  id : Nat
  prompt : String
  status : String
  image_url : Option String
  error_message : Option String
  user_id : Option Nat
  created_at : Nat
  updated_at : Option Nat
deriving Repr, DecidableEq

/-- Python truthiness of an Optional[str]: None and the empty string are falsy. -/
def truthy : Option String → Bool
  | none => false
  | some s => s != ""

/-- TaskService.create_task (src/services/task_service.py, lines 25-58):
    builds Task(prompt=prompt, status=TaskStatus.PENDING, user_id=user_id);
    image_url and error_message keep their model defaults (None). -/
def create_task (prompt : String) (user_id : Option Nat) (freshId now : Nat) : Task :=
  { id := freshId
    prompt := prompt
    status := "pending"
    image_url := none
    error_message := none
    user_id := user_id
    created_at := now
    updated_at := none }

/-- The field mutation performed inside TaskService.update_task on a found row:
    each of status / image_url / error_message is assigned only when the passed
    value is truthy; updated_at is always set to datetime.utcnow(). -/
def apply_update (task : Task) (status image_url error_message : Option String)
    (now : Nat) : Task :=
  { task with
    status := match status with
      | some s => if s = "" then task.status else s
      | none => task.status
    image_url := match image_url with
      | some s => if s = "" then task.image_url else some s
      | none => task.image_url
    error_message := match error_message with
      | some s => if s = "" then task.error_message else some s
      | none => task.error_message
    updated_at := some now }

/-- TaskService.update_task (src/services/task_service.py, lines 117-161):
    returns None (and writes nothing) when the task does not exist, otherwise
    commits and returns the patched row. -/
def update_task (t : Option Task) (status image_url error_message : Option String)
    (now : Nat) : Option Task :=
  t.map (fun task => apply_update task status image_url error_message now)

/-- TaskService.update_task_status (lines 163-172): update_task with only a
    status patch; the Bool is the returned "task is not None" flag. -/
def update_task_status (t : Option Task) (status : String) (now : Nat) :
    Option Task × Bool :=
  let r := update_task t (some status) none none now
  (r, r.isSome)

/-- The first of the two store writes done by TaskService.mark_task_completed:
    update_task_status(task_id, TaskStatus.COMPLETED.value). The store state
    this function returns is observable by concurrent readers before the second
    write of mark_task_completed lands. -/
def mark_task_completed_first (t : Option Task) (now : Nat) : Option Task :=
  (update_task_status t "completed" now).1

/-- TaskService.mark_task_completed (lines 174-185): update_task_status(id,
    "completed") and — short-circuiting on a missing row — a second, separate
    update_task(id, image_url=image_url). Returns (final store slice, truthiness
    of the Python expression). -/
def mark_task_completed (t : Option Task) (image_url : String) (now : Nat) :
    Option Task × Bool :=
  let t1 := mark_task_completed_first t now
  if t1.isSome then
    let t2 := update_task t1 none (some image_url) none now
    (t2, t2.isSome)
  else
    (t1, false)

/-- TaskService.mark_task_failed (lines 187-199):
    update_task(id, status="failed", error_message=error_message). -/
def mark_task_failed (t : Option Task) (error_message : String) (now : Nat) :
    Option Task × Bool :=
  let r := update_task t (some "failed") none (some error_message) now
  (r, r.isSome)

/-- The shape of the generator response body consumed by
    AIService._parse_response: only the choices list matters (each element is
    the message content string; a missing content defaults to ""). -/
structure RespData where
  choices : List String
deriving Repr, DecidableEq

/-- The dictionary produced by AIService._parse_response, as read by the
    executor: success flag, image_url, content. -/
structure AIResult where
  success : Bool
  image_url : String
  content : String
deriving Repr, DecidableEq

/-- AIService._parse_response (src/services/ai_service.py, lines 141-188):
    raises when the response carries no choices; otherwise fabricates
    success=True and an image_url built from a fresh random token — it never
    validates that the response actually contains a result. -/
def parse_response (resp : RespData) (token : String) : Except String AIResult :=
  match resp.choices with
  | [] => Except.error "AI响应中没有choices"
  | c :: _ =>
    Except.ok
      { success := true
        image_url := "https://example.com/generated/" ++ token ++ ".jpg"
        content := c }

/-- Outcome of one requests.post attempt inside AIService.generate_image:
    a 200 response with a JSON body, a non-200 response, a
    requests.exceptions.Timeout, or any other exception. -/
inductive AttemptOutcome where
  | ok (resp : RespData)
  | httpError (code : Nat) (text : String)
  | timeout
  | exc (msg : String)
deriving Repr, DecidableEq

/-- The default DoubaoConfig.max_retries (src/infra/config.py, line 64). -/
def doubao_default_max_retries : Nat := 3

/-- The retry loop of AIService.generate_image (src/services/ai_service.py,
    lines 92-139), one recursion step per iteration of
    "for attempt in range(self.max_retries)". The outcome of each attempt is
    drawn from the oracle list. Returns (result-or-raised-error,
    number of requests issued, list of time.sleep durations performed).
    Control-flow notes taken from the source:
    - a 200 response is fed to _parse_response inside the same try, so a parse
      failure is caught by the generic "except Exception" handler and retried;
    - the non-200 branch sleeps 2 ** attempt before retrying, and on the last
      attempt raises Exception(error_msg), which the generic handler re-raises;
    - the Timeout branch retries with no sleep and raises
      Exception("AI接口多次调用超时") on the last attempt;
    - the generic branch retries with no sleep and re-raises on the last
      attempt;
    - falling out of the loop (max_retries == 0) raises
      Exception("AI服务调用失败"). -/
def generate_image_loop (maxRetries : Nat) (token : String) :
    Nat → List AttemptOutcome → Except String AIResult × Nat × List Nat
  | _, [] => (Except.error "AI服务调用失败", 0, [])
  | attempt, o :: rest =>
    if maxRetries ≤ attempt then
      (Except.error "AI服务调用失败", 0, [])
    else
      match o with
      | AttemptOutcome.ok resp =>
        match parse_response resp token with
        | Except.ok r => (Except.ok r, 1, [])
        | Except.error e =>
          if attempt < maxRetries - 1 then
            let r2 := generate_image_loop maxRetries token (attempt + 1) rest
            (r2.1, r2.2.1 + 1, r2.2.2)
          else
            (Except.error e, 1, [])
      | AttemptOutcome.httpError code text =>
        if attempt < maxRetries - 1 then
          let r2 := generate_image_loop maxRetries token (attempt + 1) rest
          (r2.1, r2.2.1 + 1, 2 ^ attempt :: r2.2.2)
        else
          (Except.error ("AI接口错误: " ++ toString code ++ " - " ++ text), 1, [])
      | AttemptOutcome.timeout =>
        if attempt < maxRetries - 1 then
          let r2 := generate_image_loop maxRetries token (attempt + 1) rest
          (r2.1, r2.2.1 + 1, r2.2.2)
        else
          (Except.error "AI接口多次调用超时", 1, [])
      | AttemptOutcome.exc m =>
        if attempt < maxRetries - 1 then
          let r2 := generate_image_loop maxRetries token (attempt + 1) rest
          (r2.1, r2.2.1 + 1, r2.2.2)
        else
          (Except.error m, 1, [])

/-- AIService.generate_image: the retry loop started at attempt 0. -/
def generate_image (maxRetries : Nat) (token : String)
    (outcomes : List AttemptOutcome) : Except String AIResult × Nat × List Nat :=
  generate_image_loop maxRetries token 0 outcomes

/-- A concrete completed row used in counterexamples and witnesses. -/
def completedTask : Task :=
  { id := 1
    prompt := "a cat"
    status := "completed"
    image_url := some "https://example.com/1.jpg"
    error_message := none
    user_id := none
    created_at := 0
    updated_at := some 1 }

/-- A concrete pending row used in counterexamples and witnesses. -/
def pendingTask : Task :=
  { id := 3
    prompt := "a dog"
    status := "pending"
    image_url := none
    error_message := none
    user_id := none
    created_at := 0
    updated_at := none }

/-- Claim C1 counterexample: terminal states are not absorbing. update_task on
    a task whose status is "completed" happily sets the status back to
    "pending", contradicting "no subsequent call to update_task changes the
    status of a Completed task". -/
theorem c1_counterexample :
    completedTask.status = "completed" ∧
    (update_task (some completedTask) (some "pending") none none 2).map Task.status
      = some "pending" := by
  exact ⟨rfl, rfl⟩

/-- Claim C1 amended: TaskService.update_task has no terminal-state guard at
    all — any non-empty status supplied by the caller unconditionally
    overwrites the current status (terminal or not), leaving the other fields
    untouched and advancing updated_at. -/
theorem c1_update_task_overwrites_any_status (task : Task) (s : String) (n : Nat)
    (h : s ≠ "") :
    update_task (some task) (some s) none none n =
      some { task with status := s, updated_at := some n } := by
  simp [update_task, apply_update, h]

/-- Witness for c1_update_task_overwrites_any_status at a concrete terminal
    task and concrete status value. -/
theorem c1_update_task_overwrites_any_status_witness :
    update_task (some completedTask) (some "processing") none none 3 =
      some { completedTask with status := "processing", updated_at := some 3 } :=
  c1_update_task_overwrites_any_status completedTask "processing" 3 (by decide)

/-- Claim C8 confirmed: every task built by TaskService.create_task starts
    Pending with empty result locator and empty failure reason. -/
theorem c8_create_task_initial_state (prompt : String) (uid : Option Nat)
    (fid n : Nat) :
    (create_task prompt uid fid n).status = "pending" ∧
    (create_task prompt uid fid n).image_url = none ∧
    (create_task prompt uid fid n).error_message = none :=
  ⟨rfl, rfl, rfl⟩

/-- Claim C10 confirmed: update_task is a pure frame update. On an existing row
    it only touches the fields whose patch value is truthy, plus updated_at;
    id, prompt, created_at and user_id are never modified, a falsy (None or
    empty-string) patch leaves its field unchanged, and a field can never be
    set to an empty value, so non-empty status / image_url / error_message are
    never cleared back to empty. -/
theorem c10_update_task_frame (task : Task) (st iu em : Option String) (n : Nat) :
    update_task (some task) st iu em n = some (apply_update task st iu em n) ∧
    (apply_update task st iu em n).id = task.id ∧
    (apply_update task st iu em n).prompt = task.prompt ∧
    (apply_update task st iu em n).created_at = task.created_at ∧
    (apply_update task st iu em n).user_id = task.user_id ∧
    (apply_update task st iu em n).updated_at = some n ∧
    (truthy st = false → (apply_update task st iu em n).status = task.status) ∧
    (truthy iu = false → (apply_update task st iu em n).image_url = task.image_url) ∧
    (truthy em = false →
      (apply_update task st iu em n).error_message = task.error_message) ∧
    ((apply_update task st iu em n).status = "" → task.status = "") ∧
    ((apply_update task st iu em n).image_url = none ∨
        (apply_update task st iu em n).image_url = some "" →
      task.image_url = none ∨ task.image_url = some "") ∧
    ((apply_update task st iu em n).error_message = none ∨
        (apply_update task st iu em n).error_message = some "" →
      task.error_message = none ∨ task.error_message = some "") := by
  refine ⟨rfl, rfl, rfl, rfl, rfl, rfl, ?_, ?_, ?_, ?_, ?_, ?_⟩
  · intro h
    cases st with
    | none => rfl
    | some s =>
      simp only [truthy, bne_eq_false_iff_eq] at h
      simp [apply_update, h]
  · intro h
    cases iu with
    | none => rfl
    | some s =>
      simp only [truthy, bne_eq_false_iff_eq] at h
      simp [apply_update, h]
  · intro h
    cases em with
    | none => rfl
    | some s =>
      simp only [truthy, bne_eq_false_iff_eq] at h
      simp [apply_update, h]
  · intro h
    cases st with
    | none => exact h
    | some s =>
      by_cases hs : s = ""
      · simpa [apply_update, hs] using h
      · simp [apply_update, hs] at h
  · intro h
    cases iu with
    | none => exact h
    | some s =>
      by_cases hs : s = ""
      · simpa [apply_update, hs] using h
      · simp [apply_update, hs] at h
  · intro h
    cases em with
    | none => exact h
    | some s =>
      by_cases hs : s = ""
      · simpa [apply_update, hs] using h
      · simp [apply_update, hs] at h

/-- Witness for c10_update_task_frame at a concrete row and a concrete patch
    (an empty status string, no image_url, a non-empty error message). -/
theorem c10_update_task_frame_witness :
    update_task (some pendingTask) (some "") none (some "oops") 7 =
      some (apply_update pendingTask (some "") none (some "oops") 7) ∧
    (apply_update pendingTask (some "") none (some "oops") 7).id = pendingTask.id ∧
    (apply_update pendingTask (some "") none (some "oops") 7).prompt = pendingTask.prompt ∧
    (apply_update pendingTask (some "") none (some "oops") 7).created_at =
      pendingTask.created_at ∧
    (apply_update pendingTask (some "") none (some "oops") 7).user_id =
      pendingTask.user_id ∧
    (apply_update pendingTask (some "") none (some "oops") 7).updated_at = some 7 ∧
    (truthy (some "") = false →
      (apply_update pendingTask (some "") none (some "oops") 7).status =
        pendingTask.status) ∧
    (truthy none = false →
      (apply_update pendingTask (some "") none (some "oops") 7).image_url =
        pendingTask.image_url) ∧
    (truthy (some "oops") = false →
      (apply_update pendingTask (some "") none (some "oops") 7).error_message =
        pendingTask.error_message) ∧
    ((apply_update pendingTask (some "") none (some "oops") 7).status = "" →
      pendingTask.status = "") ∧
    ((apply_update pendingTask (some "") none (some "oops") 7).image_url = none ∨
        (apply_update pendingTask (some "") none (some "oops") 7).image_url = some "" →
      pendingTask.image_url = none ∨ pendingTask.image_url = some "") ∧
    ((apply_update pendingTask (some "") none (some "oops") 7).error_message = none ∨
        (apply_update pendingTask (some "") none (some "oops") 7).error_message =
          some "" →
      pendingTask.error_message = none ∨ pendingTask.error_message = some "") :=
  c10_update_task_frame pendingTask (some "") none (some "oops") 7

/-- Claim C5 counterexample: completion is not atomic. mark_task_completed
    issues two separate store writes; after the first one (modelled exactly by
    mark_task_completed_first) the task is observable with status "completed"
    while its result locator is still empty. -/
theorem c5_counterexample :
    (mark_task_completed_first (some pendingTask) 1).map Task.status
      = some "completed" ∧
    (mark_task_completed_first (some pendingTask) 1).bind Task.image_url = none :=
  ⟨rfl, rfl⟩

/-- Claim C5 amended: mark_task_completed performs completion in two sequential
    store updates. The state after the first update is observable with
    status "completed" and the old (possibly empty) image_url; only the second
    update installs the supplied non-empty locator. error_message is left
    unchanged rather than cleared. -/
theorem c5_two_step_completion (task : Task) (url : String) (n : Nat)
    (h : url ≠ "") :
    mark_task_completed_first (some task) n =
      some { task with status := "completed", updated_at := some n } ∧
    mark_task_completed (some task) url n =
      (some { task with
          status := "completed", image_url := some url, updated_at := some n },
        true) := by
  constructor
  · rfl
  · simp [mark_task_completed, mark_task_completed_first, update_task_status,
      update_task, apply_update, h]

/-- Witness for c5_two_step_completion on a concrete pending task and a
    concrete non-empty locator. -/
theorem c5_two_step_completion_witness :
    mark_task_completed_first (some pendingTask) 4 =
      some { pendingTask with status := "completed", updated_at := some 4 } ∧
    mark_task_completed (some pendingTask) "https://example.com/d.jpg" 4 =
      (some { pendingTask with
          status := "completed"
          image_url := some "https://example.com/d.jpg"
          updated_at := some 4 },
        true) :=
  c5_two_step_completion pendingTask "https://example.com/d.jpg" 4 (by decide)

/-- Claim C6 counterexample: mark_task_failed called with an empty reason (the
    Executor passes str(e), which can be empty) sets status to "failed" but
    stores no reason at all — the task reaches Failed with an empty
    error_message. -/
theorem c6_counterexample :
    (mark_task_failed (some pendingTask) "" 2).1 =
      some { pendingTask with status := "failed", updated_at := some 2 } ∧
    ((mark_task_failed (some pendingTask) "" 2).1).bind Task.error_message = none :=
  ⟨rfl, rfl⟩

/-- Claim C6 amended: mark_task_failed stores the reason only when it is
    non-empty; in that case it sets status to "failed" and records the reason,
    but leaves image_url unchanged rather than clearing it (and an empty
    reason argument leaves the previous, possibly empty, error_message). -/
theorem c6_mark_failed_nonempty_reason (task : Task) (msg : String) (n : Nat)
    (h : msg ≠ "") :
    (mark_task_failed (some task) msg n).1 =
      some { task with
          status := "failed", error_message := some msg, updated_at := some n } ∧
    (mark_task_failed (some task) msg n).2 = true := by
  constructor
  · simp [mark_task_failed, update_task, apply_update, h]
  · rfl

/-- Witness for c6_mark_failed_nonempty_reason at a concrete completed task
    (whose image_url survives the failure write) and non-empty reason. -/
theorem c6_mark_failed_nonempty_reason_witness :
    (mark_task_failed (some completedTask) "generator exploded" 9).1 =
      some { completedTask with
          status := "failed"
          error_message := some "generator exploded"
          updated_at := some 9 } ∧
    (mark_task_failed (some completedTask) "generator exploded" 9).2 = true :=
  c6_mark_failed_nonempty_reason completedTask "generator exploded" 9 (by decide)

/-- A 200 response whose JSON body has no choices list: the malformed-response
    case of _parse_response. -/
def emptyResp : RespData := { choices := [] }

/-- Helper: on a run of timeouts covering attempts a..m-1, the loop issues one
    request per attempt, never sleeps, and ends with the timeout-exhaustion
    message. -/
theorem generate_image_loop_timeout (tok : String) :
    ∀ (n a m : Nat), a + n = m → 1 ≤ n →
      generate_image_loop m tok a (List.replicate n AttemptOutcome.timeout) =
        (Except.error "AI接口多次调用超时", n, []) := by
  intro n
  induction n with
  | zero => intro a m h h1; omega
  | succ k ih =>
    intro a m h h1
    rcases Nat.eq_zero_or_pos k with hk | hk
    · subst hk
      simp only [List.replicate, generate_image_loop]
      rw [if_neg (by omega), if_neg (by omega)]
    · have hma : ¬ m ≤ a := by omega
      have h2 : a < m - 1 := by omega
      simp only [List.replicate, generate_image_loop, if_neg hma, if_pos h2,
        ih (a + 1) m (by omega) hk]

/-- Helper: on a run of identical non-200 responses covering attempts a..m-1,
    the loop issues one request per attempt, sleeps 2 ^ attempt seconds after
    every attempt except the last, and ends with the HTTP error message. -/
theorem generate_image_loop_httpError (tok : String) (c : Nat) (s : String) :
    ∀ (n a m : Nat), a + n = m → 1 ≤ n →
      generate_image_loop m tok a (List.replicate n (AttemptOutcome.httpError c s)) =
        (Except.error ("AI接口错误: " ++ toString c ++ " - " ++ s), n,
          (List.range' a (n - 1)).map fun i => 2 ^ i) := by
  intro n
  induction n with
  | zero => intro a m h h1; omega
  | succ k ih =>
    intro a m h h1
    rcases Nat.eq_zero_or_pos k with hk | hk
    · subst hk
      simp only [List.replicate, generate_image_loop, List.range']
      rw [if_neg (by omega), if_neg (by omega)]
      simp
    · have hma : ¬ m ≤ a := by omega
      have h2 : a < m - 1 := by omega
      obtain ⟨j, rfl⟩ : ∃ j, k = j + 1 := ⟨k - 1, by omega⟩
      have hih := ih (a + 1) m (by omega) hk
      rw [List.replicate_succ]
      generalize hL : List.replicate (j + 1) (AttemptOutcome.httpError c s) = L
        at hih ⊢
      simp only [generate_image_loop, if_neg hma, if_pos h2, hih]
      simp [List.range']

/-- Helper: a 200 response with no choices makes _parse_response raise, and the
    generic exception handler retries it; a run of such responses covering
    attempts a..m-1 issues one request per attempt with no sleeps and re-raises
    the parse error after the last attempt. -/
theorem generate_image_loop_parse_fail (tok : String) (resp : RespData)
    (h0 : resp.choices = []) :
    ∀ (n a m : Nat), a + n = m → 1 ≤ n →
      generate_image_loop m tok a (List.replicate n (AttemptOutcome.ok resp)) =
        (Except.error "AI响应中没有choices", n, []) := by
  have hp : parse_response resp tok = Except.error "AI响应中没有choices" := by
    simp only [parse_response, h0]
  intro n
  induction n with
  | zero => intro a m h h1; omega
  | succ k ih =>
    intro a m h h1
    rcases Nat.eq_zero_or_pos k with hk | hk
    · subst hk
      simp only [List.replicate, generate_image_loop, hp]
      rw [if_neg (by omega), if_neg (by omega)]
    · have hma : ¬ m ≤ a := by omega
      have h2 : a < m - 1 := by omega
      simp only [List.replicate, generate_image_loop, hp, if_neg hma, if_pos h2,
        ih (a + 1) m (by omega) hk]

/-- Claim C3 counterexample: with the default max_retries = 3 and a timeout on
    every attempt, generate_image performs no backoff sleep at all — the sleep
    trace is [], not the claimed 1s, 2s, 4s schedule — before raising the
    exhaustion error. -/
theorem c3_counterexample :
    (generate_image 3 "tok" (List.replicate 3 AttemptOutcome.timeout)).1 =
      Except.error "AI接口多次调用超时" ∧
    (generate_image 3 "tok" (List.replicate 3 AttemptOutcome.timeout)).2.1 = 3 ∧
    (generate_image 3 "tok" (List.replicate 3 AttemptOutcome.timeout)).2.2 = [] ∧
    ([] : List Nat) ≠ [1, 2, 4] :=
  ⟨rfl, rfl, rfl, by decide⟩

/-- Claim C3 amended: generate_image makes exactly max_retries total attempts
    on a persistent transient failure and then raises a plain Exception whose
    message distinguishes timeout exhaustion from a server-side error; the
    exponential backoff sleeps (2 ^ attempt, i.e. 1s, 2s, ... up to
    2 ^ (max_retries - 2)) happen only between non-200 server responses, while
    timeout attempts are retried immediately with no sleep. -/
theorem c3_retry_schedule (m : Nat) (tok : String) (c : Nat) (s : String)
    (h : 1 ≤ m) :
    generate_image m tok (List.replicate m AttemptOutcome.timeout) =
      (Except.error "AI接口多次调用超时", m, ([] : List Nat)) ∧
    generate_image m tok (List.replicate m (AttemptOutcome.httpError c s)) =
      (Except.error ("AI接口错误: " ++ toString c ++ " - " ++ s), m,
        (List.range' 0 (m - 1)).map fun i => 2 ^ i) :=
  ⟨generate_image_loop_timeout tok m 0 m (by omega) h,
   generate_image_loop_httpError tok c s m 0 m (by omega) h⟩

/-- Witness for c3_retry_schedule at the default max_retries = 3: three
    requests, no sleep for timeouts, sleeps [1, 2] for server errors. -/
theorem c3_retry_schedule_witness :
    generate_image 3 "tok2" (List.replicate 3 AttemptOutcome.timeout) =
      (Except.error "AI接口多次调用超时", 3, ([] : List Nat)) ∧
    generate_image 3 "tok2" (List.replicate 3 (AttemptOutcome.httpError 500 "err")) =
      (Except.error ("AI接口错误: " ++ toString 500 ++ " - " ++ "err"), 3,
        (List.range' 0 2).map fun i => 2 ^ i) :=
  c3_retry_schedule 3 "tok2" 500 "err" (by decide)

/-- Claim C4 counterexample: a malformed 200 response (body with no choices)
    is NOT failed immediately — the exception from _parse_response is caught by the
    generic retry handler, so with the default max_retries = 3 the client
    issues 3 requests, not 1, before re-raising the parse error. -/
theorem c4_counterexample :
    (generate_image 3 "tok" (List.replicate 3 (AttemptOutcome.ok emptyResp))).2.1
      = 3 ∧
    (3 : Nat) ≠ 1 ∧
    (generate_image 3 "tok" (List.replicate 3 (AttemptOutcome.ok emptyResp))).1 =
      Except.error "AI响应中没有choices" :=
  ⟨rfl, by decide, rfl⟩

/-- Claim C4 amended: validation-class failures are retried like transient
    ones. A malformed response (no choices) on every attempt makes
    generate_image issue exactly max_retries requests with no sleeps and then
    re-raise the parse error; a response with a missing result is never even
    detected, because _parse_response fabricates success and an image_url. -/
theorem c4_validation_failure_retried (m : Nat) (tok : String) (resp : RespData)
    (h0 : resp.choices = []) (h1 : 1 ≤ m) :
    generate_image m tok (List.replicate m (AttemptOutcome.ok resp)) =
      (Except.error "AI响应中没有choices", m, ([] : List Nat)) :=
  generate_image_loop_parse_fail tok resp h0 m 0 m (by omega) h1

/-- Witness for c4_validation_failure_retried at the default max_retries = 3
    and the concrete empty-choices response. -/
theorem c4_validation_failure_retried_witness :
    generate_image 3 "tok3" (List.replicate 3 (AttemptOutcome.ok emptyResp)) =
      (Except.error "AI响应中没有choices", 3, ([] : List Nat)) :=
  c4_validation_failure_retried 3 "tok3" emptyResp (by decide) (by decide)

/-- Oracle environment for one run of the background executor
    process_image_task (src/api/pic.py, lines 83-147):
    - apiKeyConfigured: whether ai_service.api_key is set and not a
      "your-" placeholder (line 107);
    - mockUrl: the mock image URL built from the prompt hash in the
      unconfigured branch;
    - mockWrite: outcome of writing the mock image file;
    - gen: outcome of ai_service.generate_image (error = raised exception,
      carrying str(e));
    - save: outcome of image_service.save_image_from_url per URL. -/
structure RunEnv where
  apiKeyConfigured : Bool
  mockUrl : String
  mockWrite : Except String Unit
  gen : Except String AIResult
  save : String → Except String String

/-- Whether an Except value is the raised-exception case. -/
def isErr {ε α : Type} : Except ε α → Bool
  | Except.error _ => true
  | Except.ok _ => false

/-- process_image_task (src/api/pic.py, lines 83-147). Returns the final store
    slice for the task id and the number of calls made to
    ai_service.generate_image. Control flow from the source:
    1. update_task_status(task_id, PROCESSING) unconditionally; its Bool result
       is discarded and there is no check that the task was Pending (or exists);
    2. if the API key is unconfigured, a mock URL is used and a mock file is
       written; otherwise generate_image is called and its result dict is
       checked for success and a non-empty image_url, raising on either;
    3. save_image_from_url(image_url);
    4. mark_task_completed(task_id, image_url).
    The whole body sits in one try/except; the except arm runs
    mark_task_failed(task_id, str(e)), so no exception escapes. -/
def process_image_task (t : Option Task) (env : RunEnv) (now : Nat) :
    Option Task × Nat :=
  let t1 := (update_task_status t "processing" now).1
  if env.apiKeyConfigured then
    match env.gen with
    | Except.error e => ((mark_task_failed t1 e now).1, 1)
    | Except.ok r =>
      if !r.success then
        ((mark_task_failed t1 ("AI生成失败: " ++ reprStr r) now).1, 1)
      else if r.image_url = "" then
        ((mark_task_failed t1 "AI未返回图片URL" now).1, 1)
      else
        match env.save r.image_url with
        | Except.error e => ((mark_task_failed t1 e now).1, 1)
        | Except.ok _ => ((mark_task_completed t1 r.image_url now).1, 1)
  else
    match env.mockWrite with
    | Except.error e => ((mark_task_failed t1 e now).1, 0)
    | Except.ok _ =>
      match env.save env.mockUrl with
      | Except.error e => ((mark_task_failed t1 e now).1, 0)
      | Except.ok _ => ((mark_task_completed t1 env.mockUrl now).1, 0)

/-- The environments in which some step of process_image_task raises (or a
    check fails): generator exception, unsuccessful result, empty image_url,
    save failure, or mock-file write failure. -/
def envFails (env : RunEnv) : Bool :=
  if env.apiKeyConfigured then
    match env.gen with
    | Except.error _ => true
    | Except.ok r => !r.success || r.image_url == "" || isErr (env.save r.image_url)
  else
    isErr env.mockWrite || isErr (env.save env.mockUrl)

/-- A concrete failed row used in counterexamples and witnesses. -/
def failedTask : Task :=
  { id := 2
    prompt := "a bird"
    status := "failed"
    image_url := none
    error_message := some "boom"
    user_id := none
    created_at := 0
    updated_at := some 1 }

/-- A concrete all-success executor environment with the API key configured. -/
def envReal : RunEnv :=
  { apiKeyConfigured := true
    mockUrl := "http://localhost:8000/static/images/mock_x.jpg"
    mockWrite := Except.ok ()
    gen := Except.ok
      { success := true
        image_url := "https://example.com/generated/tok.jpg"
        content := "c" }
    save := fun _ => Except.ok "./static/images/f.jpg" }

/-- Claim C2 counterexample: process_image_task has no claim step. Run on a
    task that is already terminal (status "failed"), it still calls the
    generator (1 call, not 0) and rewrites the status all the way to
    "completed" — it does not abort silently on a non-Pending task. -/
theorem c2_counterexample :
    (process_image_task (some failedTask) envReal 5).2 = 1 ∧
    ((process_image_task (some failedTask) envReal 5).1).map Task.status =
      some "completed" :=
  ⟨rfl, rfl⟩

/-- Claim C2 amended: the executor never inspects the task before running.
    Whatever the store slice holds (Pending, Processing, terminal, or no row at
    all), process_image_task first writes status "processing" and then performs
    the generator call whenever the API key is configured: the number of
    generator calls depends only on the configuration, never on the task, so a
    duplicate dispatch re-executes the full pipeline instead of becoming a
    no-op. -/
theorem c2_no_claim_step (t : Option Task) (env : RunEnv) (now : Nat) :
    (process_image_task t env now).2 = (if env.apiKeyConfigured then 1 else 0) := by
  rcases env with ⟨ak, mu, mw, g, sv⟩
  cases ak
  · simp only [process_image_task, Bool.false_eq_true, reduceIte]
    cases mw with
    | error e => rfl
    | ok u => cases sv mu <;> rfl
  · simp only [process_image_task, reduceIte]
    cases g with
    | error e => rfl
    | ok r =>
      dsimp only
      cases hr : r.success
      · simp [hr]
      · by_cases hu : r.image_url = ""
        · simp [hr, hu]
        · cases hs : sv r.image_url <;> simp [hr, hu, hs]

/-- Claim C7 confirmed: every raising step inside process_image_task is caught
    at the executor boundary (the single try/except around the body) and converted into
    a terminal "failed" write on the task; the run function itself is total, so
    the exception never escapes as a process-level fault. -/
theorem mark_task_failed_status (t : Task) (msg : String) (n : Nat) :
    ((mark_task_failed (some t) msg n).1).map Task.status = some "failed" := by
  simp [mark_task_failed, update_task, apply_update]

theorem c7_executor_maps_failures (task : Task) (env : RunEnv) (now : Nat)
    (h : envFails env = true) :
    ((process_image_task (some task) env now).1).map Task.status = some "failed" := by
  rcases env with ⟨ak, mu, mw, g, sv⟩
  cases ak
  · simp only [envFails, Bool.false_eq_true, reduceIte, Bool.or_eq_true] at h
    simp only [process_image_task, Bool.false_eq_true, reduceIte]
    cases mw with
    | error e => exact mark_task_failed_status _ _ _
    | ok u =>
      dsimp only
      cases hs : sv mu with
      | error e => exact mark_task_failed_status _ _ _
      | ok p =>
        exfalso
        rcases h with h | h
        · simp [isErr] at h
        · rw [hs] at h
          simp [isErr] at h
  · simp only [envFails, reduceIte] at h
    simp only [process_image_task, reduceIte]
    cases g with
    | error e => exact mark_task_failed_status _ _ _
    | ok r =>
      dsimp only at h ⊢
      cases hr : r.success
      · simp only [hr, Bool.not_false, reduceIte]
        exact mark_task_failed_status _ _ _
      · by_cases hu : r.image_url = ""
        · simp only [hr, Bool.not_true, Bool.false_eq_true, reduceIte, if_pos hu]
          exact mark_task_failed_status _ _ _
        · simp only [hr, Bool.not_true, Bool.false_eq_true, reduceIte, if_neg hu]
          cases hs : sv r.image_url with
          | error e => exact mark_task_failed_status _ _ _
          | ok p =>
            exfalso
            rw [hr, hs] at h
            simp [isErr, hu] at h

/-- Witness for c7_executor_maps_failures: a configured environment whose
    generator raises, on a concrete pending task. -/
theorem c7_executor_maps_failures_witness :
    ((process_image_task (some failedTask)
        { apiKeyConfigured := true
          mockUrl := ""
          mockWrite := Except.ok ()
          gen := Except.error "connection refused"
          save := fun _ => Except.ok "p" } 6).1).map Task.status = some "failed" :=
  c7_executor_maps_failures failedTask
    { apiKeyConfigured := true
      mockUrl := ""
      mockWrite := Except.ok ()
      gen := Except.error "connection refused"
      save := fun _ => Except.ok "p" } 6 rfl

/-- A path string, already parsed into the form the OS works with: whether it
    is absolute (starts with "/") and its meaningful segments in order, with
    empty segments and "." dropped but ".." kept. This is the faithful
    abstraction of the str filename given to ImageService.get_image_path —
    the Python code never inspects the string, it only joins and resolves it. -/
structure PathName where
  absolute : Bool
  segs : List String
deriving Repr, DecidableEq

/-- The joinpath semantics of pathlib for storage_path / filename: an absolute
    filename replaces the base entirely. -/
def joinPath (base : List String) (filename : PathName) : List String :=
  if filename.absolute then filename.segs else base ++ filename.segs

/-- OS-level resolution of ".." segments: each ".." removes the preceding
    segment. -/
def normalize (segs : List String) : List String :=
  segs.foldl (fun acc seg => if seg = ".." then acc.dropLast else acc.concat seg) []

/-- The configured storage directory, FileStorageConfig.image_storage_path
    default "./static/images" (src/infra/config.py, line 102), as segments. -/
def storageSegs : List String := ["static", "images"]

/-- ImageService.get_image_path (src/services/image_service.py, lines
    114-130): file_path = storage_path / filename; the path is returned when
    it exists and is a file, otherwise None. No check of any kind is applied
    to the supplied filename. The filesystem is modelled as the list of
    existing files, each as a normalized segment path; exists()/is_file() is
    membership after OS resolution. -/
def get_image_path (fs : List (List String)) (filename : PathName) :
    Option (List String) :=
  let p := normalize (joinPath storageSegs filename)
  if fs.contains p then some p else none

/-- Claim C9 counterexample: get_image_path does not reject path traversal.
    With a file /etc/passwd on disk (outside ./static/images), the filename
    "../../etc/passwd" resolves and is returned — not None — and the returned
    path lies outside the storage root. -/
theorem c9_counterexample :
    get_image_path [["etc", "passwd"]]
        { absolute := false, segs := ["..", "..", "etc", "passwd"] } =
      some ["etc", "passwd"] ∧
    storageSegs.isPrefixOf ["etc", "passwd"] = false := by
  exact ⟨by decide, by decide⟩

/-- Helper: folding the ".."-resolution step over a list with no ".." segment
    just appends the list to the accumulator. -/
theorem normalize_foldl_no_dotdot (xs : List String) :
    ∀ acc : List String, ".." ∉ xs →
      List.foldl
        (fun acc seg => if seg = ".." then acc.dropLast else acc.concat seg)
        acc xs = acc ++ xs := by
  induction xs with
  | nil => intro acc h; simp
  | cons a xs ih =>
    intro acc h
    have ha : a ≠ ".." := fun hc => h (hc ▸ List.mem_cons_self a xs)
    have hxs : ".." ∉ xs := fun hc => h (List.mem_cons_of_mem a hc)
    simp only [List.foldl_cons, if_neg ha, ih (acc.concat a) hxs]
    simp

/-- Helper: a list is a prefix (in the Boolean isPrefixOf sense) of itself
    followed by anything. -/
theorem isPrefixOf_append_self (xs ys : List String) :
    xs.isPrefixOf (xs ++ ys) = true := by
  induction xs with
  | nil => simp
  | cons a xs ih => simp [List.isPrefixOf, ih]

/-- Claim C9 amended: get_image_path performs no traversal rejection at all —
    it returns the resolved storage_path/filename whenever that path exists as
    a file, even when ".." segments escape the storage root (see the
    counterexample). Containment holds only for benign names: when the
    filename is not absolute and contains no ".." segment, any path it returns
    necessarily stays under the storage root. -/
theorem c9_no_traversal_check (fs : List (List String)) (f : PathName)
    (p : List String) (h1 : ".." ∉ f.segs) (h2 : f.absolute = false)
    (h3 : get_image_path fs f = some p) :
    storageSegs.isPrefixOf p = true := by
  have hjoin : joinPath storageSegs f = storageSegs ++ f.segs := by
    simp [joinPath, h2]
  have hnodot : ".." ∉ storageSegs ++ f.segs := by
    intro hc
    rcases List.mem_append.mp hc with hc | hc
    · simp [storageSegs] at hc
    · exact h1 hc
  have hnorm : normalize (joinPath storageSegs f) = storageSegs ++ f.segs := by
    rw [hjoin]
    simpa [normalize] using
      normalize_foldl_no_dotdot (storageSegs ++ f.segs) [] hnodot
  simp only [get_image_path, hnorm] at h3
  by_cases hc : fs.contains (storageSegs ++ f.segs)
  · rw [if_pos hc] at h3
    cases h3
    exact isPrefixOf_append_self storageSegs f.segs
  · rw [if_neg hc] at h3
    cases h3

/-- Witness for c9_no_traversal_check: a benign filename stored under the
    storage root. -/
theorem c9_no_traversal_check_witness :
    storageSegs.isPrefixOf ["static", "images", "cat.jpg"] = true :=
  c9_no_traversal_check [["static", "images", "cat.jpg"]]
    { absolute := false, segs := ["cat.jpg"] }
    ["static", "images", "cat.jpg"] (by decide) (by decide) (by decide)

end GenPhoto
